import Mathlib

/-!
Shallow embedding of the NaijaSolarOps solar sizing engine (src/app.py)
and verification of its specification's claims.  Python floats are
modelled by exact rationals; the constants 0.7, 0.6, 0.5, 0.75, 1.25 of
the source appear as the literal rationals 7/10, 6/10, 1/2, 3/4, 5/4.
-/

namespace NaijaSolar

/-- Appliance categories; the four keys of the `APPLIANCES` table. -/
inductive Category where
  | essentials
  | workTech
  | kitchenCooling
  | heavyDuty
deriving DecidableEq, Repr

/-- Operating mode from the sidebar radio: "Reliability (24/7)" or
"Smart Saver (Day Only)"; the code branches on `mode.startswith("Smart")`. -/
inductive Mode where
  | reliability
  | smartSaver
deriving DecidableEq, Repr

/-- One row of `user_items`: an appliance spec merged with the user's
quantity and hours-per-day inputs and its category. -/
structure Item where
  name : String
  watts : ℚ
  surge : Bool
  cat : Category
  qty : ℕ
  hours : ℚ
deriving DecidableEq, Repr

/-- Source line `is_heavy = item['cat'] in ["Heavy Duty", "Kitchen & Cooling"]`. -/
def isHeavyCat (c : Category) : Bool :=
  c = Category.heavyDuty || c = Category.kitchenCooling

/-- The UI appends an item to `user_items` only when `qty > 0`. -/
def userItems (sel : List Item) : List Item :=
  sel.filter (fun s => 0 < s.qty)

/-- Source line `daily_use = item['watts'] * item['qty'] * item['hours']`. -/
def dailyUse (s : Item) : ℚ :=
  s.watts * s.qty * s.hours

/-- Accumulation `total_daily_wh += daily_use` over the loop, from 0. -/
def total_daily_wh (items : List Item) : ℚ :=
  items.foldl (fun acc s => acc + dailyUse s) 0

/-- Accumulation `peak_load_watts += item['watts'] * item['qty']`, from 0. -/
def peak_load_watts (items : List Item) : ℚ :=
  items.foldl (fun acc s => acc + s.watts * s.qty) 0

/-- Night-load contribution of one item: 0 when Smart Saver mode and the
category is heavy, else `daily_use * 0.6`. -/
def nightContrib (mode : Mode) (s : Item) : ℚ :=
  if mode = Mode.smartSaver ∧ isHeavyCat s.cat then 0 else dailyUse s * (6/10)

/-- Accumulation `night_load_wh += daily_use * 0.6` under the battery-logic
branch, from 0. -/
def night_load_wh (mode : Mode) (items : List Item) : ℚ :=
  items.foldl (fun acc s => acc + nightContrib mode s) 0

/-- The `heavy_consumers` list: items with `daily_use > 1000`, recorded as
(name, daily kWh) in loop order. -/
def heavy_consumers (items : List Item) : List (String × ℚ) :=
  (items.filter (fun s => 1000 < dailyUse s)).map (fun s => (s.name, dailyUse s / 1000))

/-! ### Hardware sizing -/

/-- Source line `req_panel_kw = (total_daily_wh / 0.7) / (sun_hours * 1000)`. -/
def req_panel_kw (total sun : ℚ) : ℚ :=
  (total / (7/10)) / (sun * 1000)

/-- Source line `num_panels = math.ceil((req_panel_kw * 1000) / 500)`. -/
def num_panels (total sun : ℚ) : ℤ :=
  ⌈req_panel_kw total sun * 1000 / 500⌉

/-- Inverter classes of the tiered selection. -/
inductive InvClass where
  | threeKVA
  | fiveKVA
  | tenKVA
deriving DecidableEq, Repr

/-- Source line `req_inv_watts = peak_load_watts * 1.25`. -/
def req_inv_watts (peak : ℚ) : ℚ :=
  peak * (5/4)

/-- Tiered inverter selection: `< 3000 → 3kVA/24V`, `< 5000 → 5kVA/48V`,
else `10kVA/48V`.  Returns (class, system voltage). -/
def inverterChoice (peak : ℚ) : InvClass × ℕ :=
  if req_inv_watts peak < 3000 then (InvClass.threeKVA, 24)
  else if req_inv_watts peak < 5000 then (InvClass.fiveKVA, 48)
  else (InvClass.tenKVA, 48)

/-- Python `int(q)`: truncation toward zero. -/
def intTrunc (q : ℚ) : ℤ :=
  if q < 0 then ⌈q⌉ else ⌊q⌋

/-- Source line `batt_wh_needed = night_load_wh / 0.5`. -/
def batt_wh_needed (night : ℚ) : ℚ :=
  night / (1/2)

/-- Source line `total_batt_ah = batt_wh_needed / sys_v`. -/
def total_batt_ah (night sysV : ℚ) : ℚ :=
  batt_wh_needed night / sysV

/-- Source line `series_string = sys_v / 12` (a Python float). -/
def series_string (sysV : ℚ) : ℚ :=
  sysV / 12

/-- Source line `parallel_strings = math.ceil(total_batt_ah / 220)`. -/
def parallel_strings (night sysV : ℚ) : ℤ :=
  ⌈total_batt_ah night sysV / 220⌉

/-- Source logic `num_batteries = int(series_string * parallel_strings)`, raised to
`int(series_string)` when below `series_string`. -/
def num_batteries (night sysV : ℚ) : ℤ :=
  let n : ℤ := intTrunc (series_string sysV * (parallel_strings night sysV : ℚ))
  if (n : ℚ) < series_string sysV then intTrunc (series_string sysV) else n

/-- Source line `gen_wh = num_panels * 500 * sun_hours * 0.75`. -/
def gen_wh (panels : ℤ) (sun : ℚ) : ℚ :=
  (panels : ℚ) * 500 * sun * (3/4)

/-! ### Helper lemmas on fold-style accumulation -/

theorem foldl_add_eq_sum (f : Item → ℚ) :
    ∀ (l : List Item) (init : ℚ),
      l.foldl (fun acc s => acc + f s) init = init + (l.map f).sum := by
  intro l
  induction l with
  | nil => intro init; simp
  | cons a t ih =>
      intro init
      simp [List.foldl_cons, ih (init + f a), add_assoc]

theorem total_daily_wh_eq_sum (items : List Item) :
    total_daily_wh items = (items.map dailyUse).sum := by
  simpa [total_daily_wh] using foldl_add_eq_sum dailyUse items 0

theorem peak_load_watts_eq_sum (items : List Item) :
    peak_load_watts items = (items.map (fun s => s.watts * (s.qty : ℚ))).sum := by
  simpa [peak_load_watts] using foldl_add_eq_sum (fun s => s.watts * (s.qty : ℚ)) items 0

theorem night_load_wh_eq_sum (mode : Mode) (items : List Item) :
    night_load_wh mode items = (items.map (nightContrib mode)).sum := by
  simpa [night_load_wh] using foldl_add_eq_sum (nightContrib mode) items 0

theorem isHeavyCat_iff (c : Category) :
    isHeavyCat c = true ↔ (c = Category.kitchenCooling ∨ c = Category.heavyDuty) := by
  cases c <;> simp [isHeavyCat]

/-- The per-item night contribution written as the spec states it. -/
theorem nightContrib_spec (mode : Mode) (s : Item) :
    nightContrib mode s =
      if mode = Mode.smartSaver ∧ (s.cat = Category.kitchenCooling ∨ s.cat = Category.heavyDuty)
      then 0 else s.watts * s.qty * s.hours * (6/10) := by
  cases mode <;> cases hc : s.cat <;>
    simp [nightContrib, isHeavyCat, dailyUse, hc, mul_assoc]

/-- An item whose fields came through the input clamps: watts from the
catalog and hours from the bounded number input are non-negative. -/
def validItem (s : Item) : Prop :=
  0 ≤ s.watts ∧ 0 ≤ s.hours

instance (s : Item) : Decidable (validItem s) := by
  unfold validItem; infer_instance

theorem validItem_dailyUse_nonneg {s : Item} (h : validItem s) : 0 ≤ dailyUse s := by
  have hq : (0:ℚ) ≤ (s.qty : ℚ) := by positivity
  exact mul_nonneg (mul_nonneg h.1 hq) h.2

theorem validItem_of_mem_userItems {sel : List Item}
    (hval : ∀ s ∈ sel, validItem s) {s : Item} (hs : s ∈ userItems sel) : validItem s :=
  hval s (List.mem_of_mem_filter hs)

/-- Reliability mode never zeroes a contribution. -/
theorem nightContrib_reliability (s : Item) :
    nightContrib Mode.reliability s = dailyUse s * (6/10) := by
  simp [nightContrib]

theorem nightContrib_le (s : Item) (mode : Mode) (h : validItem s) :
    nightContrib mode s ≤ nightContrib Mode.reliability s := by
  rw [nightContrib_reliability]
  unfold nightContrib
  split
  · have := validItem_dailyUse_nonneg h
    positivity
  · exact le_rfl

/-- C1: over the items with positive quantity, the three accumulators equal
the spec's closed-form sums: Σ watts·qty·hours, Σ watts·qty, and
Σ daily·0.6 with heavy categories zeroed in Smart Saver mode. -/
theorem C1_aggregation (sel : List Item) (mode : Mode) :
    total_daily_wh (userItems sel)
        = ((userItems sel).map (fun s => s.watts * (s.qty : ℚ) * s.hours)).sum
    ∧ peak_load_watts (userItems sel)
        = ((userItems sel).map (fun s => s.watts * (s.qty : ℚ))).sum
    ∧ night_load_wh mode (userItems sel)
        = ((userItems sel).map (fun s =>
            if mode = Mode.smartSaver
                ∧ (s.cat = Category.kitchenCooling ∨ s.cat = Category.heavyDuty)
            then 0 else s.watts * (s.qty : ℚ) * s.hours * (6/10))).sum := by
  refine ⟨total_daily_wh_eq_sum _, peak_load_watts_eq_sum _, ?_⟩
  rw [night_load_wh_eq_sum]
  congr 1
  exact List.map_congr_left (fun s _ => nightContrib_spec mode s)

/-- C5: for any selection of clamp-valid items and any mode, the aggregated
night energy is at most 60% of the aggregated daily energy. -/
theorem C5_night_le_total (sel : List Item) (mode : Mode)
    (hval : ∀ s ∈ sel, validItem s) :
    night_load_wh mode (userItems sel) ≤ total_daily_wh (userItems sel) * (6/10) := by
  rw [night_load_wh_eq_sum, total_daily_wh_eq_sum, ← List.sum_map_mul_right]
  refine List.sum_le_sum ?_
  intro s hs
  have hv := validItem_of_mem_userItems hval hs
  calc nightContrib mode s ≤ nightContrib Mode.reliability s := nightContrib_le s mode hv
    _ = dailyUse s * (6/10) := nightContrib_reliability s

theorem C5_night_le_total_witness :
    night_load_wh Mode.smartSaver
        (userItems [⟨"LED Bulb", 10, false, Category.essentials, 5, 6⟩,
                    ⟨"Small Fridge", 120, true, Category.kitchenCooling, 1, 6⟩])
      ≤ total_daily_wh
        (userItems [⟨"LED Bulb", 10, false, Category.essentials, 5, 6⟩,
                    ⟨"Small Fridge", 120, true, Category.kitchenCooling, 1, 6⟩]) * (6/10) :=
  C5_night_le_total _ Mode.smartSaver (by decide)

/-- C6: Smart Saver night energy never exceeds Reliability night energy for
the same selection, and is strictly smaller as soon as some selected item
with positive quantity, hours and watts is in a heavy category. -/
theorem C6_smartSaver_le_reliability (sel : List Item)
    (hval : ∀ s ∈ sel, validItem s) :
    night_load_wh Mode.smartSaver (userItems sel)
        ≤ night_load_wh Mode.reliability (userItems sel)
    ∧ ((∃ s ∈ sel, 0 < s.qty ∧ 0 < s.hours ∧ 0 < s.watts
          ∧ (s.cat = Category.kitchenCooling ∨ s.cat = Category.heavyDuty)) →
        night_load_wh Mode.smartSaver (userItems sel)
          < night_load_wh Mode.reliability (userItems sel)) := by
  have hle : ∀ s ∈ userItems sel,
      nightContrib Mode.smartSaver s ≤ nightContrib Mode.reliability s := by
    intro s hs
    exact nightContrib_le s _ (validItem_of_mem_userItems hval hs)
  constructor
  · rw [night_load_wh_eq_sum, night_load_wh_eq_sum]
    exact List.sum_le_sum hle
  · rintro ⟨s, hmem, hq, hh, hw, hcat⟩
    rw [night_load_wh_eq_sum, night_load_wh_eq_sum]
    refine List.sum_lt_sum _ _ hle ⟨s, ?_, ?_⟩
    · unfold userItems
      rw [List.mem_filter]
      exact ⟨hmem, by simpa using hq⟩
    · have hheavy : isHeavyCat s.cat = true := by
        rcases hcat with h | h <;> simp [isHeavyCat, h]
      have hdaily : 0 < dailyUse s := by
        have hq' : (0:ℚ) < (s.qty : ℚ) := by exact_mod_cast hq
        unfold dailyUse; positivity
      rw [nightContrib_reliability]
      unfold nightContrib
      rw [if_pos ⟨rfl, hheavy⟩]
      positivity

theorem C6_smartSaver_le_reliability_witness :
    night_load_wh Mode.smartSaver
        (userItems [⟨"Big Freezer (Chest)", 350, true, Category.kitchenCooling, 1, 6⟩])
      < night_load_wh Mode.reliability
        (userItems [⟨"Big Freezer (Chest)", 350, true, Category.kitchenCooling, 1, 6⟩]) :=
  (C6_smartSaver_le_reliability _ (by decide)).2
    ⟨⟨"Big Freezer (Chest)", 350, true, Category.kitchenCooling, 1, 6⟩,
      by decide, by decide, by decide, by decide, Or.inl rfl⟩

/-! ### Panel sizing (C2, C7, C10) -/

/-- The ceiling argument of `num_panels` in lowest terms. -/
theorem panel_arg_eq (total sun : ℚ) (hs : sun ≠ 0) :
    req_panel_kw total sun * 1000 / 500 = total / (350 * sun) := by
  unfold req_panel_kw
  field_simp
  ring

theorem num_panels_ge (total sun : ℚ) (hs : 0 < sun) :
    total / (350 * sun) ≤ (num_panels total sun : ℚ) := by
  rw [num_panels, panel_arg_eq total sun hs.ne']
  exact Int.le_ceil _

/-- C2: the panel count is the ceiling of the spec's formula, evaluates to 1
panel on the 300 Wh / 4.4 h scenario, and 500 W per panel never falls below
the required generation capacity in watts. -/
theorem C2_panel_sizing (total sun : ℚ) (ht : 0 ≤ total) (hs : 0 < sun) :
    num_panels total sun = ⌈total / (7/10) / (sun * 1000) * 1000 / 500⌉
    ∧ num_panels 300 (44/10) = 1
    ∧ total / (7/10) / sun ≤ (num_panels total sun : ℚ) * 500 := by
  refine ⟨rfl, ?_, ?_⟩
  · rw [num_panels, panel_arg_eq 300 (44/10) (by norm_num), Int.ceil_eq_iff]
    norm_num
  · have h1 := num_panels_ge total sun hs
    calc total / (7/10) / sun = total / (350 * sun) * 500 := by
          field_simp
          ring
      _ ≤ (num_panels total sun : ℚ) * 500 := by
          exact mul_le_mul_of_nonneg_right h1 (by norm_num)

theorem C2_panel_sizing_witness :
    (0:ℚ) ≤ 300 ∧ (0:ℚ) < 44/10 ∧ num_panels 300 (44/10) = 1 :=
  ⟨by norm_num, by norm_num,
    (C2_panel_sizing 300 (44/10) (by norm_num) (by norm_num)).2.1⟩

/-- C7: the panel count is monotone non-decreasing in the daily energy for a
fixed positive sun-hours value, and monotone non-increasing in sun hours
for a fixed non-negative daily energy. -/
theorem C7_panel_monotonicity :
    (∀ t₁ t₂ s : ℚ, 0 < s → t₁ ≤ t₂ → num_panels t₁ s ≤ num_panels t₂ s)
    ∧ (∀ t s₁ s₂ : ℚ, 0 ≤ t → 0 < s₁ → s₁ ≤ s₂ → num_panels t s₂ ≤ num_panels t s₁) := by
  constructor
  · intro t₁ t₂ s hs hle
    unfold num_panels
    apply Int.ceil_le_ceil
    rw [panel_arg_eq t₁ s hs.ne', panel_arg_eq t₂ s hs.ne']
    have h350 : (0:ℚ) < 350 * s := by positivity
    gcongr
  · intro t s₁ s₂ ht hs₁ hle
    unfold num_panels
    apply Int.ceil_le_ceil
    have hs₂ : (0:ℚ) < s₂ := lt_of_lt_of_le hs₁ hle
    rw [panel_arg_eq t s₁ hs₁.ne', panel_arg_eq t s₂ hs₂.ne']
    gcongr

theorem C7_panel_monotonicity_witness :
    num_panels 300 (44/10) ≤ num_panels 900 (44/10)
    ∧ num_panels 300 (58/10) ≤ num_panels 300 (44/10) :=
  ⟨C7_panel_monotonicity.1 300 900 (44/10) (by norm_num) (by norm_num),
   C7_panel_monotonicity.2 300 (44/10) (58/10) (by norm_num) (by norm_num) (by norm_num)⟩

/-- C10: with panels sized by the engine, generated energy
(panels × 500 W × sun hours × 0.75) is never below the daily demand, so the
under-provisioning warning condition `gen_wh < total_daily_wh` never fires. -/
theorem C10_warning_unreachable (total sun : ℚ) (ht : 0 < total) (hs : 0 < sun) :
    ¬ (gen_wh (num_panels total sun) sun < total) := by
  rw [not_lt]
  have h1 := num_panels_ge total sun hs
  have h2 : total / (350 * sun) * 500 * sun * (3/4) ≤ gen_wh (num_panels total sun) sun := by
    unfold gen_wh
    have hp : (0:ℚ) ≤ total / (350 * sun) := by positivity
    gcongr
  have h3 : total / (350 * sun) * 500 * sun * (3/4) = total * (15/14) := by
    field_simp
    ring
  rw [h3] at h2
  nlinarith

theorem C10_warning_unreachable_witness :
    ¬ (gen_wh (num_panels 300 (44/10)) (44/10) < 300) :=
  C10_warning_unreachable 300 (44/10) (by norm_num) (by norm_num)

/-! ### Inverter selection (C3) -/

/-- C3: the inverter is chosen from `peak × 1.25` by the fixed 3000 W and
5000 W thresholds, giving 3kVA/24V, 5kVA/48V or 10kVA/48V; peak 4200 W
yields a required capacity of 5250 W and the 10kVA class at 48 V. -/
theorem C3_inverter_selection (peak : ℚ) :
    req_inv_watts peak = peak * (5/4)
    ∧ (req_inv_watts peak < 3000 → inverterChoice peak = (InvClass.threeKVA, 24))
    ∧ (3000 ≤ req_inv_watts peak → req_inv_watts peak < 5000 →
        inverterChoice peak = (InvClass.fiveKVA, 48))
    ∧ (5000 ≤ req_inv_watts peak → inverterChoice peak = (InvClass.tenKVA, 48))
    ∧ req_inv_watts 4200 = 5250
    ∧ inverterChoice 4200 = (InvClass.tenKVA, 48) := by
  refine ⟨rfl, ?_, ?_, ?_, by norm_num [req_inv_watts], ?_⟩
  · intro h
    rw [inverterChoice, if_pos h]
  · intro h1 h2
    rw [inverterChoice, if_neg (not_lt.mpr h1), if_pos h2]
  · intro h
    rw [inverterChoice, if_neg (not_lt.mpr (by linarith)), if_neg (not_lt.mpr h)]
  · have h : (5000:ℚ) ≤ req_inv_watts 4200 := by norm_num [req_inv_watts]
    rw [inverterChoice, if_neg (not_lt.mpr (by linarith)), if_neg (not_lt.mpr h)]

theorem C3_inverter_selection_witness :
    inverterChoice 4200 = (InvClass.tenKVA, 48) ∧ inverterChoice 1400 = (InvClass.threeKVA, 24) :=
  ⟨(C3_inverter_selection 4200).2.2.2.2.2,
   (C3_inverter_selection 1400).2.1 (by norm_num [req_inv_watts])⟩

/-! ### Battery sizing (C4) -/

theorem intTrunc_intCast (n : ℤ) : intTrunc (n : ℚ) = n := by
  unfold intTrunc
  split <;> simp

theorem parallel_strings_nonneg (night sysV : ℚ) (hn : 0 ≤ night) (hv : 0 < sysV) :
    0 ≤ parallel_strings night sysV := by
  apply Int.ceil_nonneg
  unfold total_batt_ah batt_wh_needed
  positivity

/-- Closed form of `num_batteries` when the series count is the integer `s`. -/
theorem num_batteries_closed (night sysV : ℚ) (s : ℤ)
    (hss : series_string sysV = (s : ℚ)) :
    num_batteries night sysV =
      if s * parallel_strings night sysV < s then s else s * parallel_strings night sysV := by
  unfold num_batteries
  rw [hss]
  have hcast : (s : ℚ) * (parallel_strings night sysV : ℚ)
      = ((s * parallel_strings night sysV : ℤ) : ℚ) := by push_cast; ring
  rw [hcast, intTrunc_intCast, intTrunc_intCast]
  by_cases h : s * parallel_strings night sysV < s
  · rw [if_pos (show ((s * parallel_strings night sysV : ℤ) : ℚ) < (s : ℚ) by exact_mod_cast h),
      if_pos h]
  · rw [if_neg (show ¬ ((s * parallel_strings night sysV : ℤ) : ℚ) < (s : ℚ) by exact_mod_cast h),
      if_neg h]

/-- C4: with a system voltage of 24 V or 48 V, the battery count is
seriesCount × ⌈(night / 0.5 / V) / 220⌉ except that it is raised to
seriesCount when that product falls below it (in particular at zero night
load), so the count never drops below one full series string. -/
theorem C4_battery_sizing (night sysV : ℚ) (hn : 0 ≤ night) (hv : sysV = 24 ∨ sysV = 48) :
    (series_string sysV * (parallel_strings night sysV : ℚ) < series_string sysV →
        (num_batteries night sysV : ℚ) = series_string sysV)
    ∧ (series_string sysV ≤ series_string sysV * (parallel_strings night sysV : ℚ) →
        (num_batteries night sysV : ℚ)
          = series_string sysV * (parallel_strings night sysV : ℚ))
    ∧ series_string sysV ≤ (num_batteries night sysV : ℚ)
    ∧ (night = 0 → (num_batteries night sysV : ℚ) = series_string sysV) := by
  have hvpos : 0 < sysV := by rcases hv with h | h <;> rw [h] <;> norm_num
  obtain ⟨s, hs, hss⟩ : ∃ s : ℤ, 0 < s ∧ series_string sysV = (s : ℚ) := by
    rcases hv with h | h
    · exact ⟨2, by norm_num, by rw [h]; norm_num [series_string]⟩
    · exact ⟨4, by norm_num, by rw [h]; norm_num [series_string]⟩
  have hp : 0 ≤ parallel_strings night sysV := parallel_strings_nonneg night sysV hn hvpos
  have hclosed := num_batteries_closed night sysV s hss
  set p := parallel_strings night sysV with hpdef
  refine ⟨?_, ?_, ?_, ?_⟩
  · intro hlt
    rw [hss] at hlt ⊢
    have hlt' : s * p < s := by exact_mod_cast hlt
    rw [hclosed, if_pos hlt']
  · intro hge
    rw [hss] at hge ⊢
    have hge' : s ≤ s * p := by exact_mod_cast hge
    rw [hclosed, if_neg (not_lt.mpr hge')]
    push_cast
    ring
  · rw [hss, hclosed]
    split
    · exact le_rfl
    · exact_mod_cast not_lt.mp (by assumption)
  · intro hzero
    have hpz : p = 0 := by
      rw [hpdef]
      unfold parallel_strings total_batt_ah batt_wh_needed
      rw [hzero]
      norm_num
    rw [hss, hclosed, hpz]
    rw [if_pos (by simpa using hs)]

theorem C4_battery_sizing_witness :
    (num_batteries 0 24 : ℚ) = series_string 24
    ∧ series_string 48 ≤ (num_batteries 5280 48 : ℚ) :=
  ⟨(C4_battery_sizing 0 24 (by norm_num) (Or.inl rfl)).2.2.2 rfl,
   (C4_battery_sizing 5280 48 (by norm_num) (Or.inr rfl)).2.2.1⟩

/-! ### Solar irradiance resolver (C8) -/

/-- The `SOLAR_DATA` table, in dict insertion order (iteration order is
significant: first match wins). -/
def SOLAR_DATA : List (String × ℚ) :=
  [("Lagos", 44/10), ("Abuja", 52/10), ("Kano", 58/10), ("Ibadan", 46/10),
   ("Port Harcourt", 38/10), ("Enugu", 45/10), ("Sokoto", 6)]

/-- Python's `needle in hay` substring test on character lists. -/
def subMatch (needle : List Char) : List Char → Bool
  | [] => needle.isEmpty
  | c :: t => needle.isPrefixOf (c :: t) || subMatch needle t

/-- Python `str.lower()` as a map over the character list. -/
def lowerChars (l : List Char) : List Char := l.map Char.toLower

/-- The table scan `for key in SOLAR_DATA: if key.lower() in city_name.lower()`. -/
def lookupSolar (city : String) : Option (String × ℚ) :=
  SOLAR_DATA.find? (fun p => subMatch (lowerChars p.1.data) (lowerChars city.data))

/-- Outcome of the external geocoding collaborator: a latitude, no
location, or any raised error / timeout. -/
inductive GeoOutcome where
  | found (lat : ℚ)
  | noLocation
  | failure
deriving DecidableEq, Repr

/-- Latitude-band classification of step 2 of the resolver. -/
def latBandHours (lat : ℚ) : ℚ :=
  if 11 < lat then 58/10
  else if 9 < lat then 52/10
  else if 7 < lat then 46/10
  else 4

/-- The resolver `get_sun_hours`: table lookup first, then the geocoding bands, with the
4.6 h "Nigeria Average" fallback whenever the geocoder yields nothing or
raises. -/
def get_sun_hours (city : String) (geo : GeoOutcome) : ℚ × String :=
  match lookupSolar city with
  | some (key, h) => (h, "Using historical data for " ++ key)
  | none =>
    match geo with
    | GeoOutcome.found lat =>
        (latBandHours lat,
          "Detected Lat: " ++ toString lat ++ " (Est. Sun: " ++ toString (latBandHours lat) ++ "h)")
    | GeoOutcome.noLocation => (46/10, "Using Nigeria Average (4.6h)")
    | GeoOutcome.failure => (46/10, "Using Nigeria Average (4.6h)")

theorem SOLAR_DATA_pos : ∀ p ∈ SOLAR_DATA, 0 < p.2 := by
  intro p hp
  fin_cases hp <;> norm_num

theorem latBandHours_pos (lat : ℚ) : 0 < latBandHours lat := by
  unfold latBandHours
  split
  · norm_num
  · split
    · norm_num
    · split <;> norm_num

/-- C8: whatever the geocoding collaborator does, the resolver returns a
profile with strictly positive sun hours, and when the city misses the
table and the geocoder fails or finds no location the result is exactly
4.6 h with the "Nigeria Average" note. -/
theorem C8_resolver_total (city : String) (geo : GeoOutcome) :
    0 < (get_sun_hours city geo).1
    ∧ (lookupSolar city = none →
        (geo = GeoOutcome.noLocation ∨ geo = GeoOutcome.failure) →
        get_sun_hours city geo = (46/10, "Using Nigeria Average (4.6h)")) := by
  constructor
  · unfold get_sun_hours
    cases hlook : lookupSolar city with
    | some p =>
        obtain ⟨key, h⟩ := p
        have hmem : (key, h) ∈ SOLAR_DATA := List.mem_of_find?_eq_some hlook
        simpa using SOLAR_DATA_pos (key, h) hmem
    | none =>
        cases geo with
        | found lat => simpa using latBandHours_pos lat
        | noLocation => norm_num
        | failure => norm_num
  · intro hnone hgeo
    unfold get_sun_hours
    rw [hnone]
    rcases hgeo with h | h <;> rw [h]

theorem C8_resolver_total_witness :
    0 < (get_sun_hours "Gombe" GeoOutcome.failure).1
    ∧ get_sun_hours "Gombe" GeoOutcome.failure = (46/10, "Using Nigeria Average (4.6h)") :=
  ⟨(C8_resolver_total "Gombe" GeoOutcome.failure).1,
   (C8_resolver_total "Gombe" GeoOutcome.failure).2 (by rfl) (Or.inr rfl)⟩

/-! ### Composed analysis pipeline (C9) -/

def PRICES_panel_500w : ℤ := 145000

def PRICES_battery_220ah : ℤ := 340000

def PRICES_install_base : ℤ := 150000

def PRICES_install_heavy : ℤ := 350000

/-- Price of the selected inverter class. -/
def inverterPrice : InvClass → ℤ
  | InvClass.threeKVA => 650000
  | InvClass.fiveKVA => 1100000
  | InvClass.tenKVA => 2600000

structure LoadSummary where
  totalDailyEnergyWh : ℚ
  peakPowerW : ℚ
  nightEnergyWh : ℚ
  topConsumers : List (String × ℚ)
deriving DecidableEq, Repr

structure HardwarePlan where
  panelCount : ℤ
  inverterClass : InvClass
  systemVoltage : ℕ
  batteryCount : ℤ
deriving DecidableEq, Repr

structure CostBreakdown where
  panelCost : ℤ
  batteryCost : ℤ
  inverterCost : ℤ
  installCost : ℤ
  totalCost : ℤ
deriving DecidableEq, Repr

inductive AnalysisError where
  | noAppliances
deriving DecidableEq, Repr

/-- The button handler: validation, load analysis, sizing, financials.
An empty `user_items` list stops before any computation. -/
def run_analysis (sel : List Item) (mode : Mode) (sunHours : ℚ) :
    Except AnalysisError (LoadSummary × HardwarePlan × CostBreakdown) :=
  let items := userItems sel
  if items.isEmpty then Except.error AnalysisError.noAppliances
  else
    let total := total_daily_wh items
    let peak := peak_load_watts items
    let night := night_load_wh mode items
    let panels := num_panels total sunHours
    let inv := inverterChoice peak
    let batts := num_batteries night (inv.2 : ℚ)
    let cPanels := panels * PRICES_panel_500w
    let cBatts := batts * PRICES_battery_220ah
    let cInv := inverterPrice inv.1
    let cInstall := if 24 < inv.2 then PRICES_install_heavy else PRICES_install_base
    Except.ok (⟨total, peak, night, heavy_consumers items⟩,
      ⟨panels, inv.1, inv.2, batts⟩,
      ⟨cPanels, cBatts, cInv, cInstall, cPanels + cBatts + cInv + cInstall⟩)

/-- C9: when every appliance has quantity 0 the pipeline reports the
validation error and returns no summary, plan or cost. -/
theorem C9_empty_selection (sel : List Item) (mode : Mode) (sun : ℚ)
    (h : ∀ s ∈ sel, s.qty = 0) :
    run_analysis sel mode sun = Except.error AnalysisError.noAppliances := by
  have hempty : userItems sel = [] := by
    rw [userItems, List.filter_eq_nil_iff]
    intro a ha
    simp [h a ha]
  simp [run_analysis, hempty]

theorem C9_empty_selection_witness :
    run_analysis [⟨"LED Bulb", 10, false, Category.essentials, 0, 6⟩] Mode.reliability (46/10)
      = Except.error AnalysisError.noAppliances :=
  C9_empty_selection _ Mode.reliability (46/10) (by decide)

end NaijaSolar
